import Mathlib

/-!
Verification of the Center-Dashboard data pipeline
(`src/center_database_v2.py` and `src/center_database.py`).

The pandas code is embedded shallowly: a spreadsheet cell is an optional
typed value (`none` models NaN / an empty cell), a row is an association
list from column name to cell, and a raw table carries its column list
(so that a column that exists but is entirely empty is still "present",
as in pandas).  Every column-wise pandas operation of the source is
row-wise, so the pipeline is modelled per row.
-/

namespace CenterDashboard

/-- A typed spreadsheet value as `pd.read_excel` delivers it: a numeric
cell or a text cell.  `pd.to_numeric(errors="coerce")` parses numeric
cells and coerces text cells to NaN; a text cell that happens to hold a
numeral string, which pandas would parse, is modelled as numeric
upstream. -/
inductive Val where
  | num (q : Rat)
  | str (s : String)
deriving Repr, DecidableEq

/-- A cell: `none` is NaN / missing. -/
abbrev Cell := Option Val

/-- A row: association list from column name to cell. -/
abbrev Row := List (String × Cell)

/-- Cell of `row` at column `c`; a column the row does not list is NaN. -/
def getCell (row : Row) (c : String) : Cell :=
  (row.lookup c).join

/-- A raw table: the column list (presence of a column is decided here,
exactly as `c in df.columns`) and the rows. -/
structure RawTable where
  cols : List String
  rows : List Row
deriving Repr, DecidableEq

/-- `c in df.columns`. -/
def hasCol (t : RawTable) (c : String) : Bool :=
  t.cols.contains c

/-- `str.strip()` on one name: drop leading and trailing whitespace,
modelled over the character list. -/
def stripName (s : String) : String :=
  String.mk (((s.toList.dropWhile Char.isWhitespace).reverse.dropWhile
    Char.isWhitespace).reverse)

/-- `df.columns = df.columns.str.strip()` (line 37): trim every column
name; row keys are renamed with their columns. -/
def stripCols (t : RawTable) : RawTable :=
  { cols := t.cols.map stripName
    rows := t.rows.map fun row => row.map fun kv => (stripName kv.1, kv.2) }

/-- `pd.to_numeric(value, errors="coerce")` on one cell: numeric cells
pass through, text cells and NaN coerce to `none`. -/
def toNumeric (c : Cell) : Option Rat :=
  match c with
  | some (Val.num q) => some q
  | _ => none

/-- `pd.to_datetime(value, errors="coerce")` on one cell, with a datetime
modelled as its numeric timestamp: unparsable cells become `none` (NaT). -/
def toDate (c : Cell) : Option Rat :=
  match c with
  | some (Val.num q) => some q
  | _ => none

/-- The normalized entity the dashboard works with: the derived columns
`Centre`, `Program`, `Date`, `Participants`, `Satisfaction`, `Category`
of one row after `load_all_centers_data` ran.  `centre`, `program` and
`category` are cells (the source copies the resolved column verbatim,
NaN included); `participants` and `satisfaction` are always numeric
because the source fills them with defaults. -/
structure CanonicalRecord where
  centre : Cell
  program : Cell
  date : Option Rat
  participants : Rat
  satisfaction : Rat
  category : Cell
deriving Repr, DecidableEq

/-- Lines 40–48: resolve `Centre` from `"Location Name"`, `"Location"`,
`"Center"` in that order, else the constant `"ICCO"`. -/
def centreCell (t : RawTable) (row : Row) : Cell :=
  if hasCol t "Location Name" then getCell row "Location Name"
  else if hasCol t "Location" then getCell row "Location"
  else if hasCol t "Center" then getCell row "Center"
  else some (Val.str "ICCO")

/-- Lines 51–56: resolve `Program` from `"Program Name"`, `"Course Name"`,
an existing `"Program"` column, else the constant `"Program"`. -/
def programCell (t : RawTable) (row : Row) : Cell :=
  if hasCol t "Program Name" then getCell row "Program Name"
  else if hasCol t "Course Name" then getCell row "Course Name"
  else if hasCol t "Program" then getCell row "Program"
  else some (Val.str "Program")

/-- Lines 63–66: `Participants` defaults to 1 when the column is absent;
otherwise `pd.to_numeric(..., errors="coerce").fillna(1)`. -/
def participantsVal (t : RawTable) (row : Row) : Rat :=
  if hasCol t "Participants" then (toNumeric (getCell row "Participants")).getD 1
  else 1

/-- Lines 69–72: `Satisfaction` defaults to 4 when the column is absent;
otherwise `pd.to_numeric(..., errors="coerce").fillna(4)`. -/
def satisfactionVal (t : RawTable) (row : Row) : Rat :=
  if hasCol t "Satisfaction" then (toNumeric (getCell row "Satisfaction")).getD 4
  else 4

/-- Lines 75–78: `Category` copies `"Target Audience"` when present, else
keeps an existing `"Category"` column, else the constant `"General"`. -/
def categoryCell (t : RawTable) (row : Row) : Cell :=
  if hasCol t "Target Audience" then getCell row "Target Audience"
  else if hasCol t "Category" then getCell row "Category"
  else some (Val.str "General")

/-- Line 59: the `Date` column, when present, is coerced to datetime. -/
def dateVal (t : RawTable) (row : Row) : Option Rat :=
  if hasCol t "Date" then toDate (getCell row "Date") else none

/-- The canonical record of one row (the derived columns of lines 40–78). -/
def toRecord (t : RawTable) (row : Row) : CanonicalRecord :=
  { centre := centreCell t row
    program := programCell t row
    date := dateVal t row
    participants := participantsVal t row
    satisfaction := satisfactionVal t row
    category := categoryCell t row }

/-- The derived column names: `df["Centre"] = ...` and friends overwrite
any original column of the same name. -/
def derivedCols : List String :=
  ["Centre", "Program", "Participants", "Satisfaction", "Category"]

/-- The cells of one row of the dataframe as it stands at line 81, when
`df.dropna(how="all")` runs: the untouched original columns, the five
derived columns (`Participants` and `Satisfaction` hold the filled
numbers), and the coerced `Date` column when the table has one. -/
def finalCells (t : RawTable) (row : Row) : List Cell :=
  (t.cols.filter fun c => !(derivedCols.contains c || c == "Date")).map (getCell row)
    ++ [centreCell t row, programCell t row,
        some (Val.num (participantsVal t row)),
        some (Val.num (satisfactionVal t row)),
        categoryCell t row]
    ++ (if hasCol t "Date" then [(dateVal t row).map Val.num] else [])

/-- `df.dropna(how="all")` keeps a row iff some cell of the dataframe at
line 81 is non-null. -/
def rowKept (t : RawTable) (row : Row) : Bool :=
  (finalCells t row).any Option.isSome

/-- The pure core of `load_all_centers_data` (lines 34–85) on a table the
file read delivered: strip the column names, derive the canonical
columns, drop the rows `dropna(how="all")` drops. -/
def load_all_centers_data (t : RawTable) : List CanonicalRecord :=
  let s := stripCols t
  (s.rows.filter (rowKept s)).map (toRecord s)

/-- The metrics dict of `calculate_metrics` (lines 101–118).
`total_participants` is `int(df["Participants"].sum())` (Python `int`
truncates toward zero); `avg_satisfaction` is `df["Satisfaction"].mean()`
on non-empty input and the literal `0` on empty input (the guard of
line 103); `nunique` counts distinct non-null values. -/
structure Metrics where
  total_programs : Nat
  total_participants : Int
  avg_satisfaction : Rat
  unique_programs : Nat
  target_audiences : Nat
deriving Repr, DecidableEq

/-- Python `int()` on a rational: truncation toward zero. -/
def truncInt (q : Rat) : Int :=
  Int.tdiv q.num (q.den : Int)

/-- `Series.nunique()`: the number of distinct non-null values. -/
def nunique (cs : List Cell) : Nat :=
  (cs.filterMap id).dedup.length

/-- `calculate_metrics` (lines 101–118). -/
def calculate_metrics (rs : List CanonicalRecord) : Metrics :=
  if rs.isEmpty then
    { total_programs := 0
      total_participants := 0
      avg_satisfaction := 0
      unique_programs := 0
      target_audiences := 0 }
  else
    { total_programs := rs.length
      total_participants := truncInt (rs.map (fun r => r.participants)).sum
      avg_satisfaction := (rs.map (fun r => r.satisfaction)).sum / (rs.length : Rat)
      unique_programs := nunique (rs.map (fun r => r.program))
      target_audiences := nunique (rs.map (fun r => r.category)) }

/-- `Series.isin(values)` as a boolean mask (one entry per record). -/
def maskIsin (f : CanonicalRecord → Cell) (values : List Cell)
    (rs : List CanonicalRecord) : List Bool :=
  rs.map fun r => values.contains (f r)

/-- `df["Satisfaction"] >= threshold` as a boolean mask. -/
def maskGe (thr : Rat) (rs : List CanonicalRecord) : List Bool :=
  rs.map fun r => decide (thr ≤ r.satisfaction)

/-- Elementwise `&` of two boolean masks. -/
def andMasks (a b : List Bool) : List Bool :=
  a.zipWith and b

/-- `df[mask]`: keep the rows whose mask entry is true. -/
def applyMask : List CanonicalRecord → List Bool → List CanonicalRecord
  | [], _ => []
  | _, [] => []
  | r :: rs, b :: bs => if b then r :: applyMask rs bs else applyMask rs bs

/-- The Raw-Data tab filter (lines 481–485): conjunction of the
`Program.isin`, `Category.isin` and `Satisfaction >=` masks, applied by
boolean indexing. -/
def filterRecords (rs : List CanonicalRecord) (ps cs : List Cell)
    (thr : Rat) : List CanonicalRecord :=
  applyMask rs
    (andMasks (andMasks (maskIsin (fun r => r.program) ps rs)
                        (maskIsin (fun r => r.category) cs rs))
              (maskGe thr rs))

/-- The distinct non-null program keys of a record list:
`groupby("Program")` and `value_counts()` both group on the non-null
values (pandas drops NaN keys). -/
def programKeys (rs : List CanonicalRecord) : List Val :=
  ((rs.map fun r => r.program).filterMap id).dedup

/-- One group of `df.groupby("Program").agg(Participants sum,
Satisfaction mean)` (lines 267–270 and 422–425). -/
structure ProgGroup where
  key : Val
  psum : Rat
  smean : Rat
deriving Repr, DecidableEq

/-- One entry of `df["Program"].value_counts()` (line 126). -/
structure ProgCount where
  key : Val
  count : Nat
deriving Repr, DecidableEq

/-- The groups of `groupby("Program").agg(...)`: per key, the sum of
`Participants` and the mean of `Satisfaction` over the key's records. -/
def programGroups (rs : List CanonicalRecord) : List ProgGroup :=
  (programKeys rs).map fun k =>
    let g := rs.filter fun r => r.program == some k
    { key := k
      psum := (g.map fun r => r.participants).sum
      smean := (g.map fun r => r.satisfaction).sum / (g.length : Rat) }

/-- The per-key counts behind `value_counts()`. -/
def programCountsAll (rs : List CanonicalRecord) : List ProgCount :=
  (programKeys rs).map fun k =>
    { key := k, count := (rs.filter fun r => r.program == some k).length }

/-- Insert into a list sorted descending by `f`. -/
def insertDescBy {α β : Type} [LinearOrder β] (f : α → β) (x : α) :
    List α → List α
  | [] => [x]
  | y :: ys => if f y ≤ f x then x :: y :: ys else y :: insertDescBy f x ys

/-- Sort descending by `f` (`sort_values(ascending=False)`,
`value_counts()`'s descending order). -/
def sortDescBy {α β : Type} [LinearOrder β] (f : α → β) :
    List α → List α
  | [] => []
  | x :: xs => insertDescBy f x (sortDescBy f xs)

/-- `create_program_distribution`'s data (lines 121–127):
`value_counts()` sorted descending by count, truncated by `head(10)`. -/
def create_program_distribution (rs : List CanonicalRecord) : List ProgCount :=
  (sortDescBy (fun g => g.count) (programCountsAll rs)).take 10

/-- `create_program_participants`'s data (lines 267–270), the same
aggregation as the Analytics ranking table (lines 422–425):
`groupby("Program").agg(...)` sorted descending by the participant sum,
truncated by `head(10)`. -/
def create_program_participants (rs : List CanonicalRecord) : List ProgGroup :=
  (sortDescBy ProgGroup.psum (programGroups rs)).take 10

/-- How the underlying spreadsheet read goes: the file is missing
(`FileNotFoundError`), present but unreadable (any other exception from
`pd.read_excel`), or parsed into a raw table. -/
inductive FileOutcome where
  | missing
  | unparsable
  | ok (t : RawTable)
deriving Repr, DecidableEq

/-- What `load_all_centers_data` (lines 25–94) delivers: the records and
whether an error message was surfaced (`st.error`). -/
structure LoadOutcome where
  records : List CanonicalRecord
  errorShown : Bool
deriving Repr, DecidableEq

/-- `load_all_centers_data` with its exception handlers (lines 87–94):
a missing or unparsable file surfaces an error and yields the empty
dataframe; a parsed table is normalized. -/
def loadAllCentersData : FileOutcome → LoadOutcome
  | FileOutcome.missing => { records := [], errorShown := true }
  | FileOutcome.unparsable => { records := [], errorShown := true }
  | FileOutcome.ok t => { records := load_all_centers_data t, errorShown := false }

/-- `generate_sample_center_data` (`src/center_database.py` lines 17–39):
500 rows drawn with `np.random` under seed 42 over the fixed column set.
The pseudorandom draws are modelled by representative in-range values;
the row count 500 and the column set are exact, which is all the claims
use. -/
def generate_sample_center_data (_name : String) : RawTable :=
  { cols := ["Date", "Program", "Participants", "Satisfaction", "Category",
             "Attendance_Rate", "Feedback_Score", "Notes"]
    rows := List.replicate 500
      [("Date", some (Val.num 0)),
       ("Program", some (Val.str "Islamic Studies")),
       ("Participants", some (Val.num 50)),
       ("Satisfaction", some (Val.num 3)),
       ("Category", some (Val.str "Engagement")),
       ("Attendance_Rate", some (Val.num (4 / 5))),
       ("Feedback_Score", some (Val.num 5)),
       ("Notes", some (Val.str "Good engagement"))] }

/-- What `load_center_data` (`src/center_database.py` lines 42–55)
delivers: a dataframe (with a flag for the `st.warning` of the sample
fallback), or a propagated exception — only `FileNotFoundError` is
caught there. -/
inductive LoadCenterOutcome where
  | ok (t : RawTable) (warned : Bool)
  | raised
deriving Repr, DecidableEq

/-- `load_center_data` (`src/center_database.py` lines 42–55): a missing
file is replaced by generated sample data with a warning; any other
read failure propagates. -/
def load_center_data (name : String) : FileOutcome → LoadCenterOutcome
  | FileOutcome.missing => LoadCenterOutcome.ok (generate_sample_center_data name) true
  | FileOutcome.unparsable => LoadCenterOutcome.raised
  | FileOutcome.ok t => LoadCenterOutcome.ok t false

/-! Helper lemmas. -/

theorem participants_cell_mem (t : RawTable) (row : Row) :
    some (Val.num (participantsVal t row)) ∈ finalCells t row := by
  simp [finalCells]

theorem rowKept_true (t : RawTable) (row : Row) : rowKept t row = true := by
  rw [rowKept, List.any_eq_true]
  exact ⟨_, participants_cell_mem t row, rfl⟩

/-- Because the filled `Participants` column is never null, the
`dropna(how="all")` of line 81 never drops a row: the loader is exactly
the per-row normalization mapped over the stripped table. -/
theorem load_eq_map (t : RawTable) :
    load_all_centers_data t = ((stripCols t).rows).map (toRecord (stripCols t)) := by
  show ((stripCols t).rows.filter (rowKept (stripCols t))).map (toRecord (stripCols t)) = _
  rw [List.filter_eq_self.mpr fun row _ => rowKept_true (stripCols t) row]

theorem applyMask_map (p : CanonicalRecord → Bool) :
    ∀ rs : List CanonicalRecord, applyMask rs (rs.map p) = rs.filter p
  | [] => rfl
  | r :: rs => by
    simp only [List.map_cons, applyMask, List.filter_cons, applyMask_map p rs]

theorem andMasks_map {α : Type} (p q : α → Bool) :
    ∀ xs : List α, andMasks (xs.map p) (xs.map q) = xs.map fun x => p x && q x
  | [] => rfl
  | x :: xs => by
    simp only [List.map_cons, andMasks, List.zipWith_cons_cons]
    rw [show List.zipWith and (xs.map p) (xs.map q) = andMasks (xs.map p) (xs.map q) from rfl,
      andMasks_map p q xs]

/-- The three masks of lines 481–485, combined and applied, select
exactly the records satisfying the conjunction of the three criteria. -/
theorem filterRecords_eq_filter (rs : List CanonicalRecord) (ps cs : List Cell)
    (thr : Rat) :
    filterRecords rs ps cs thr
      = rs.filter fun r =>
          (ps.contains r.program && cs.contains r.category)
            && decide (thr ≤ r.satisfaction) := by
  rw [filterRecords, maskIsin, maskIsin, maskGe, andMasks_map, andMasks_map,
    applyMask_map]

theorem mem_insertDescBy {α β : Type} [LinearOrder β] (f : α → β) (x z : α) :
    ∀ l : List α, z ∈ insertDescBy f x l ↔ z = x ∨ z ∈ l
  | [] => by simp [insertDescBy]
  | y :: ys => by
    simp only [insertDescBy]
    split
    · simp only [List.mem_cons]
    · simp only [List.mem_cons, mem_insertDescBy f x z ys]
      tauto

theorem pairwise_insertDescBy {α β : Type} [LinearOrder β] (f : α → β) (x : α) :
    ∀ l : List α, l.Pairwise (fun a b => f b ≤ f a) →
      (insertDescBy f x l).Pairwise (fun a b => f b ≤ f a)
  | [], _ => by simp [insertDescBy]
  | y :: ys, h => by
    rw [List.pairwise_cons] at h
    obtain ⟨hy, hys⟩ := h
    simp only [insertDescBy]
    split
    · rename_i hle
      refine List.Pairwise.cons ?_ (List.Pairwise.cons hy hys)
      intro z hz
      rcases List.mem_cons.mp hz with rfl | hz
      · exact hle
      · exact le_trans (hy z hz) hle
    · rename_i hlt
      refine List.Pairwise.cons ?_ (pairwise_insertDescBy f x ys hys)
      intro z hz
      rcases (mem_insertDescBy f x z ys).mp hz with rfl | hz
      · exact le_of_not_le hlt
      · exact hy z hz

theorem pairwise_sortDescBy {α β : Type} [LinearOrder β] (f : α → β) :
    ∀ l : List α, (sortDescBy f l).Pairwise (fun a b => f b ≤ f a)
  | [] => List.Pairwise.nil
  | x :: xs => pairwise_insertDescBy f x _ (pairwise_sortDescBy f xs)

theorem length_insertDescBy {α β : Type} [LinearOrder β] (f : α → β) (x : α) :
    ∀ l : List α, (insertDescBy f x l).length = l.length + 1
  | [] => rfl
  | y :: ys => by
    simp only [insertDescBy]
    split
    · rfl
    · simp [List.length_cons, length_insertDescBy f x ys]

theorem length_sortDescBy {α β : Type} [LinearOrder β] (f : α → β) :
    ∀ l : List α, (sortDescBy f l).length = l.length
  | [] => rfl
  | x :: xs => by
    simp [sortDescBy, length_insertDescBy, length_sortDescBy f xs]

/-! Concrete tables used by witnesses, counterexamples and failing
inputs. -/

/-- A table whose one row has the out-of-range numeric Satisfaction 7. -/
def tableSat7 : RawTable :=
  { cols := ["Satisfaction"], rows := [[("Satisfaction", some (Val.num 7))]] }

/-- A table whose one row has a textual, non-numeric Satisfaction. -/
def tableSatText : RawTable :=
  { cols := ["Satisfaction"], rows := [[("Satisfaction", some (Val.str "N/A"))]] }

/-- Its single row (column names already trimmed). -/
def rowSatText : Row := [("Satisfaction", some (Val.str "N/A"))]

/-- A table whose one row is empty in every source column. -/
def tableEmptyRow : RawTable :=
  { cols := ["Location Name"], rows := [[("Location Name", (none : Cell))]] }

/-- A table with a `Target Audience` column holding a missing value. -/
def tableNaCategory : RawTable :=
  { cols := ["Location Name", "Target Audience"]
    rows := [[("Location Name", some (Val.str "A")),
              ("Target Audience", (none : Cell))]] }

/-- A table with both `Location Name` and `Location` columns. -/
def tableBothLoc : RawTable :=
  { cols := ["Location Name", "Location"]
    rows := [[("Location Name", some (Val.str "X")),
              ("Location", some (Val.str "Y"))]] }

/-- Its single row. -/
def rowBothLoc : Row :=
  [("Location Name", some (Val.str "X")), ("Location", some (Val.str "Y"))]

/-- A table with no `Participants` column. -/
def tableNoParts : RawTable :=
  { cols := ["Location"], rows := [[("Location", some (Val.str "A"))]] }

/-- Its single row. -/
def rowNoParts : Row := [("Location", some (Val.str "A"))]

/-- A table whose one row has the negative numeric Participants -5. -/
def tableNegParts : RawTable :=
  { cols := ["Participants"], rows := [[("Participants", some (Val.num (-5)))]] }

/-! The claims. -/

/-- C1 counterexample: in the table whose single row has the numeric
Satisfaction value 7 — outside [1,5] — the normalized record keeps
satisfaction 7; it does not resolve to 4 as the claim states. -/
theorem C1_counterexample :
    (load_all_centers_data tableSat7).map CanonicalRecord.satisfaction = [7]
      ∧ ¬ ∀ r ∈ load_all_centers_data tableSat7, r.satisfaction = 4 := by
  decide

/-- C1 (amended): in a raw table containing a Satisfaction column, every
row whose Satisfaction value is non-numeric (coerced to NaN by
`pd.to_numeric(errors="coerce")`) normalizes to a record with
satisfaction 4, and that record is in the loader's output; numeric
values, in or out of [1,5], are kept unchanged. -/
theorem C1_satisfaction_nonnumeric_defaults (t : RawTable) (row : Row)
    (hrow : row ∈ (stripCols t).rows)
    (hcol : hasCol (stripCols t) "Satisfaction" = true)
    (hnum : toNumeric (getCell row "Satisfaction") = none) :
    (toRecord (stripCols t) row).satisfaction = 4
      ∧ toRecord (stripCols t) row ∈ load_all_centers_data t := by
  constructor
  · simp [toRecord, satisfactionVal, hcol, hnum]
  · rw [load_eq_map]
    exact List.mem_map_of_mem _ hrow

/-- C1 witness: the defaulting theorem applied to the concrete table
whose single row has the textual Satisfaction value "N/A". -/
theorem C1_witness :
    (toRecord (stripCols tableSatText) rowSatText).satisfaction = 4
      ∧ toRecord (stripCols tableSatText) rowSatText
          ∈ load_all_centers_data tableSatText :=
  C1_satisfaction_nonnumeric_defaults tableSatText rowSatText
    (by decide) (by decide) (by decide)

/-- C2 (code bug): the comment of line 80 and the spec say completely
empty rows are removed, but `dropna(how="all")` runs at line 81, after
`Participants` and `Satisfaction` were filled with non-null defaults, so
the all-empty row of `tableEmptyRow` is retained as a full canonical
record instead of being dropped. -/
theorem C2_empty_row_retained :
    load_all_centers_data tableEmptyRow =
      [{ centre := none, program := some (Val.str "Program"), date := none,
         participants := 1, satisfaction := 4,
         category := some (Val.str "General") }] := by
  decide

/-- C3 counterexample: in the table whose `Target Audience` column holds
a missing value, the produced record has a null category, so not every
canonical record has non-null centre, program and category. -/
theorem C3_counterexample :
    (load_all_centers_data tableNaCategory).map CanonicalRecord.category = [none]
      ∧ ∃ r ∈ load_all_centers_data tableNaCategory, r.category = none := by
  decide

/-- C3 (amended): participants and satisfaction are always non-null (in
the embedding they are total numeric fields of every record); centre,
program and category can be null only when a corresponding source column
is present (whose missing value is copied verbatim) — when the constant
fallback applies, the field is non-null. -/
theorem C3_null_only_from_source_column (t : RawTable) (row : Row) :
    ((toRecord (stripCols t) row).centre.isSome
        || hasCol (stripCols t) "Location Name"
        || hasCol (stripCols t) "Location"
        || hasCol (stripCols t) "Center") = true
      ∧ ((toRecord (stripCols t) row).program.isSome
        || hasCol (stripCols t) "Program Name"
        || hasCol (stripCols t) "Course Name"
        || hasCol (stripCols t) "Program") = true
      ∧ ((toRecord (stripCols t) row).category.isSome
        || hasCol (stripCols t) "Target Audience"
        || hasCol (stripCols t) "Category") = true := by
  refine ⟨?_, ?_, ?_⟩
  · simp only [toRecord, centreCell]
    split_ifs <;> simp_all
  · simp only [toRecord, programCell]
    split_ifs <;> simp_all
  · simp only [toRecord, categoryCell]
    split_ifs <;> simp_all

/-- C4 counterexample: the mean satisfaction of the empty record
sequence is represented as the number 0 — exactly what the claim says
must never happen. -/
theorem C4_counterexample : (calculate_metrics []).avg_satisfaction = 0 := by
  decide

/-- C4 (amended): on the empty record sequence `calculate_metrics`
returns, without error, the metrics dict whose five entries are all the
number 0; the empty-group mean is represented as 0, not as absent and
not as NaN. -/
theorem C4_empty_metrics :
    calculate_metrics [] =
      { total_programs := 0, total_participants := 0, avg_satisfaction := 0,
        unique_programs := 0, target_audiences := 0 } := by
  decide

/-- C5 (confirmed): in a table containing both a `Location Name` and a
`Location` column, every normalized record's centre is the row's
`Location Name` value, and the record is in the loader's output. -/
theorem C5_centre_prefers_location_name (t : RawTable) (row : Row)
    (hrow : row ∈ (stripCols t).rows)
    (h1 : hasCol (stripCols t) "Location Name" = true)
    (_h2 : hasCol (stripCols t) "Location" = true) :
    (toRecord (stripCols t) row).centre = getCell row "Location Name"
      ∧ toRecord (stripCols t) row ∈ load_all_centers_data t := by
  constructor
  · simp [toRecord, centreCell, h1]
  · rw [load_eq_map]
    exact List.mem_map_of_mem _ hrow

/-- C5 witness: the priority theorem applied to the concrete table with
`Location Name` = "X" and `Location` = "Y"; the centre is "X". -/
theorem C5_witness :
    (toRecord (stripCols tableBothLoc) rowBothLoc).centre
        = getCell rowBothLoc "Location Name"
      ∧ toRecord (stripCols tableBothLoc) rowBothLoc
          ∈ load_all_centers_data tableBothLoc :=
  C5_centre_prefers_location_name tableBothLoc rowBothLoc
    (by decide) (by decide) (by decide)

/-- C6 counterexample: in the table whose single row has the numeric
Participants value -5, the normalized record keeps participants -5,
which is negative — the resolution does not yield a non-negative
integer for every record. -/
theorem C6_counterexample :
    (load_all_centers_data tableNegParts).map CanonicalRecord.participants = [-5]
      ∧ ∃ r ∈ load_all_centers_data tableNegParts, r.participants < 0 := by
  decide

/-- C6 (amended): a record's participants value is 1 whenever the
`Participants` column is absent or the row's value is non-numeric
(coerced to NaN); numeric values — including negative or fractional
ones — are kept unchanged, so the result need not be a non-negative
integer. -/
theorem C6_participants_default_one (t : RawTable) (row : Row)
    (h : hasCol (stripCols t) "Participants" = false
          ∨ toNumeric (getCell row "Participants") = none) :
    (toRecord (stripCols t) row).participants = 1 := by
  rcases h with h | h
  · simp [toRecord, participantsVal, h]
  · simp only [toRecord, participantsVal]
    split
    · simp [h]
    · rfl

/-- C6 witness: the defaulting theorem applied to the concrete table
with no `Participants` column. -/
theorem C6_witness :
    hasCol (stripCols tableNoParts) "Participants" = false
      ∧ (toRecord (stripCols tableNoParts) rowNoParts).participants = 1 :=
  ⟨by decide,
   C6_participants_default_one tableNoParts rowNoParts (Or.inl (by decide))⟩

/-- C7 (confirmed): the Raw-Data tab's mask-based filter returns exactly
the subsequence of records whose program is in the program inclusion
set, whose category is in the category inclusion set and whose
satisfaction is at least the threshold; an empty program or category
inclusion set yields the empty result. -/
theorem C7_filter_exact (rs : List CanonicalRecord) (ps cs : List Cell)
    (thr : Rat) :
    filterRecords rs ps cs thr
        = rs.filter (fun r =>
            (ps.contains r.program && cs.contains r.category)
              && decide (thr ≤ r.satisfaction))
      ∧ filterRecords rs [] cs thr = []
      ∧ filterRecords rs ps [] thr = [] := by
  refine ⟨filterRecords_eq_filter rs ps cs thr, ?_, ?_⟩
  · rw [filterRecords_eq_filter]
    simp [List.filter_eq_nil_iff]
  · rw [filterRecords_eq_filter]
    simp [List.filter_eq_nil_iff]

/-- C8 counterexample: on a missing file, `load_center_data` of
`src/center_database.py` warns and substitutes the 500-row generated
sample dataset — not the empty dataset the claim requires. -/
theorem C8_counterexample :
    load_center_data "Aboubakr" FileOutcome.missing
        = LoadCenterOutcome.ok (generate_sample_center_data "Aboubakr") true
      ∧ (generate_sample_center_data "Aboubakr").rows.length = 500
      ∧ (generate_sample_center_data "Aboubakr").rows ≠ [] := by
  have hlen : (generate_sample_center_data "Aboubakr").rows.length = 500 :=
    List.length_replicate ..
  exact ⟨rfl, hlen, List.ne_nil_of_length_pos (by omega)⟩

/-- C8 (amended): the v2 loader `load_all_centers_data` surfaces an
error and yields the empty dataset on a missing or unparsable file and
never crashes; the v1 loader `load_center_data` instead substitutes the
500-row generated sample dataset (with a warning) when the file is
missing, and an unparsable file propagates the exception. -/
theorem C8_load_failure_outcomes (name : String) :
    loadAllCentersData FileOutcome.missing = { records := [], errorShown := true }
      ∧ loadAllCentersData FileOutcome.unparsable
          = { records := [], errorShown := true }
      ∧ load_center_data name FileOutcome.missing
          = LoadCenterOutcome.ok (generate_sample_center_data name) true
      ∧ load_center_data name FileOutcome.unparsable = LoadCenterOutcome.raised
      ∧ (generate_sample_center_data name).rows.length = 500 :=
  ⟨rfl, rfl, rfl, rfl, List.length_replicate ..⟩

/-- C9 (confirmed): the per-program aggregation behind the ranking views
(participants sum and satisfaction mean per program, as in
`create_program_participants` and the Analytics ranking table) lists its
groups sorted in descending order of the participants sum. -/
theorem C9_ranking_sorted_desc (rs : List CanonicalRecord) :
    (create_program_participants rs).Pairwise fun a b => b.psum ≤ a.psum := by
  rw [create_program_participants]
  exact (pairwise_sortDescBy ProgGroup.psum (programGroups rs)).sublist
    (List.take_sublist _ _)

/-- C10 (confirmed): the program-distribution chart and the ranking
chart are truncated by `head(10)`: each lists `min 10 g` groups, where
`g` is the number of program groups, and in particular never more than
10 — groups beyond the tenth are omitted. -/
theorem C10_truncated_to_ten (rs : List CanonicalRecord) :
    (create_program_distribution rs).length = min 10 (programCountsAll rs).length
      ∧ (create_program_participants rs).length
          = min 10 (programGroups rs).length
      ∧ (create_program_distribution rs).length ≤ 10
      ∧ (create_program_participants rs).length ≤ 10 := by
  have h1 : (create_program_distribution rs).length
      = min 10 (programCountsAll rs).length := by
    rw [create_program_distribution, List.length_take, length_sortDescBy]
  have h2 : (create_program_participants rs).length
      = min 10 (programGroups rs).length := by
    rw [create_program_participants, List.length_take, length_sortDescBy]
  exact ⟨h1, h2, h1 ▸ min_le_left _ _, h2 ▸ min_le_left _ _⟩

end CenterDashboard
